import Mathlib

/-!
Shallow embedding of the Guru.ai learning-studio application
(generation client, application shell, topic input, quiz view, notes
narration).  Remote calls are modelled by passing the outcome of the
underlying request explicitly: `Except Unit τ` is `.error ()` when the
transport (or JSON parsing) fails and `.ok v` when it yields a parsed
value `v`.  JavaScript exceptions become `Except` errors carrying the
thrown message.
-/

namespace GuruAI

/-- Parsed JSON values, the possible results of `JSON.parse`. -/
inductive Json where
  | null
  | bool (b : Bool)
  | num (n : Int)
  | str (s : String)
  | arr (elems : List Json)
  | obj (fields : List (String × Json))

/-- JavaScript truthiness of a parsed JSON value (`undefined` is handled
separately as an absent field). -/
def Json.truthy : Json → Bool
  | .null => false
  | .bool b => b
  | .num n => n != 0
  | .str s => s != ""
  | .arr _ => true
  | .obj _ => true

/-- Property read `v[name]` on an object; `none` models `undefined`. -/
def Json.getField (name : String) : Json → Option Json
  | .obj fields => fields.lookup name
  | _ => none

/-- The message of the error thrown by `generateNotes` on any failure. -/
def genericNotesError : String :=
  "Failed to generate notes. Please check the topic and try again."

/-- `generateNotes` (services/geminiService.ts): awaits the model call,
parses `response.text` and returns the parsed value unchanged; any
transport or parse failure is caught and rethrown as the generic error.
The body never inspects the parsed value, so the embedding is
parametric in it. -/
def generateNotes {α : Type} (resp : Except Unit α) : Except String α :=
  match resp with
  | .error _ => .error genericNotesError
  | .ok parsedNotes => .ok parsedNotes

/-- The fixed placeholder URL returned by `generateImage` on failure. -/
def placeholderImageUrl : String := "https://picsum.photos/1280/720"

/-- `generateImage` (services/geminiService.ts): on success the response
yields the base64 image bytes and the function returns the jpeg data
URI built from them; any failure inside the `try` (transport error or a
missing image in the response) is caught and the fixed placeholder URL
is returned instead, so the function never throws. -/
def generateImage (resp : Except Unit String) : String :=
  match resp with
  | .error _ => placeholderImageUrl
  | .ok base64ImageBytes => "data:image/jpeg;base64," ++ base64ImageBytes

/-- How the body of `generateQuiz`'s `try` block can fail. -/
inductive QuizTryError where
  | upstream        -- the awaited call or `JSON.parse` threw
  | invalidQuizData -- the explicit `Received invalid quiz data from API.` throw
  | typeError       -- reading `.question` on a `null` first element threw
  deriving DecidableEq

/-- The `try` block of `generateQuiz`: parse, then check
`!Array.isArray(parsedQuiz) || parsedQuiz.length === 0 ||
!parsedQuiz[0].question` and throw the invalid-quiz-data error when the
check fires; reading `.question` on `null` throws a TypeError; any
non-object first element yields `undefined`, which is falsy. -/
def generateQuizTry (resp : Except Unit Json) : Except QuizTryError (List Json) :=
  match resp with
  | .error _ => .error .upstream
  | .ok parsedQuiz =>
    match parsedQuiz with
    | .arr elems =>
      match elems with
      | [] => .error .invalidQuizData
      | first :: _ =>
        match first with
        | .null => .error .typeError
        | .obj fields =>
          match fields.lookup "question" with
          | some v => if v.truthy then .ok elems else .error .invalidQuizData
          | none => .error .invalidQuizData
        | _ => .error .invalidQuizData
    | _ => .error .invalidQuizData

/-- The message of the error `generateQuiz`'s `catch` block throws. -/
def genericQuizError : String :=
  "Failed to generate a quiz for this topic. Please try again."

/-- `generateQuiz` (services/geminiService.ts) as observed by its caller:
the `catch` block surrounds the whole `try` body, including the
explicit invalid-quiz-data throw, and converts every failure into the
one generic error. -/
def generateQuiz (resp : Except Unit Json) : Except String (List Json) :=
  match generateQuizTry resp with
  | .ok parsedQuiz => .ok parsedQuiz
  | .error _ => .error genericQuizError

/-- `NoteSection` (types.ts): one heading+content+image unit of the
generated notes; `imageUrl` is attached after generation. -/
structure NoteSection where
  heading : String
  content : String
  imagePrompt : String
  imageUrl : Option String := none
  deriving DecidableEq

/-- `QuizQuestion` (types.ts). -/
structure QuizQuestion where
  question : String
  options : List String
  correctAnswer : String
  explanation : String
  deriving DecidableEq

/-- The quiz-scoped view state of the application shell (App.tsx). -/
inductive QuizState where
  | idle
  | generating
  | active
  deriving DecidableEq

/-- The state owned by `App` (App.tsx): the `useState` hooks. -/
structure AppState where
  notes : Option (List NoteSection)
  isLoading : Bool
  loadingMessage : String
  error : Option String
  topic : String
  quiz : Option (List Json)
  quizState : QuizState
  quizError : Option String

/-- The message of the error `handleGenerate` throws when the generated
notes array is empty. -/
def emptyNotesError : String :=
  "Could not generate notes for this topic. Please try a different one."

/-- `handleGenerate` (App.tsx): resets all prior state, calls
`generateNotes`, rejects an empty section list, then attaches one
generated image per section (`imageFor i` is the outcome of the image
request for section `i`); any thrown error lands in `error`; the
`finally` block clears `isLoading` and `loadingMessage`. -/
def handleGenerate (s : AppState) (inputTopic : String)
    (notesResp : Except Unit (List NoteSection))
    (imageFor : Nat → Except Unit String) : AppState :=
  let s1 : AppState :=
    { s with isLoading := true, error := none, notes := none,
             topic := inputTopic, quiz := none, quizState := .idle,
             quizError := none }
  match generateNotes notesResp with
  | .error msg =>
    { s1 with error := some msg, isLoading := false, loadingMessage := "" }
  | .ok structuredNotes =>
    if structuredNotes.length = 0 then
      { s1 with error := some emptyNotesError, isLoading := false,
                loadingMessage := "" }
    else
      let notesWithImages := structuredNotes.enum.map fun p =>
        { p.2 with imageUrl := some (generateImage (imageFor p.1)) }
      { s1 with notes := some notesWithImages, isLoading := false,
                loadingMessage := "" }

/-- `handleStartQuiz` (App.tsx): a no-op without notes; otherwise enters
the `generating` quiz state, clears the quiz error, and runs
`generateQuiz`: on success the quiz is stored and the state becomes
`active`; on failure the thrown message is recorded in `quizError` and
the quiz state reverts to `idle`. -/
def handleStartQuiz (s : AppState) (quizResp : Except Unit Json) : AppState :=
  match s.notes with
  | none => s
  | some _ =>
    let s1 : AppState := { s with quizState := .generating, quizError := none }
    match generateQuiz quizResp with
    | .ok quizData => { s1 with quiz := some quizData, quizState := .active }
    | .error msg => { s1 with quizError := some msg, quizState := .idle }

/-- JavaScript `String.prototype.trim`: strips leading and trailing
whitespace characters (modelled on the ASCII whitespace class). -/
def trim (s : String) : String :=
  ⟨((s.data.dropWhile Char.isWhitespace).reverse.dropWhile
      Char.isWhitespace).reverse⟩

/-- `handleSubmit` (components/TopicInput.tsx): forwards the trimmed
topic through `onGenerate` only when the trimmed topic is truthy (a
non-empty string) and no generation is in flight; `some t` records that
`onGenerate t` was invoked, `none` that it was not. -/
def handleSubmit (topic : String) (isLoading : Bool) : Option String :=
  if trim topic ≠ "" ∧ isLoading = false then some (trim topic) else none

/-- `score` (components/QuizDisplay.tsx): `quiz.reduce` counting the
questions whose recorded answer strictly equals `correctAnswer`; an
absent entry of the answer map (`undefined`) never equals a string. -/
def score (quiz : List QuizQuestion) (answers : Nat → Option String) : Nat :=
  quiz.enum.foldl
    (fun total p =>
      if answers p.1 = some p.2.correctAnswer then total + 1 else total)
    0

/-- `Math.round((score / totalQuestions) * 100)` in the results view,
on exact rationals: for `0 ≤ x`, `Math.round x = ⌊x + 1/2⌋`, and
`⌊100*s/t + 1/2⌋ = (200*s + t) / (2*t)` in natural division. -/
def scorePercentage (sc totalQuestions : Nat) : Nat :=
  (200 * sc + totalQuestions) / (2 * totalQuestions)

/-- The feedback selection of the results view (QuizDisplay.tsx):
defaults to "Great effort!", replaced by "Excellent work!" when the
percentage exceeds 80 and otherwise by "Good job!" when it exceeds
50. -/
def feedbackMessage (scorePct : Nat) : String :=
  if 80 < scorePct then "Excellent work!"
  else if 50 < scorePct then "Good job!"
  else "Great effort!"

/-- `handleNext` (QuizDisplay.tsx): advance the cursor only while
strictly below `totalQuestions - 1`. -/
def handleNext (totalQuestions i : Nat) : Nat :=
  if i < totalQuestions - 1 then i + 1 else i

/-- `handlePrev` (QuizDisplay.tsx): retreat the cursor only while
strictly above 0. -/
def handlePrev (i : Nat) : Nat :=
  if 0 < i then i - 1 else i

/-- A quiz-navigation event: the Next or Previous button. -/
inductive NavOp where
  | next
  | prev
  deriving DecidableEq

/-- One navigation event applied to the cursor. -/
def navStep (totalQuestions i : Nat) : NavOp → Nat
  | .next => handleNext totalQuestions i
  | .prev => handlePrev i

/-- The cursor after a sequence of navigation events, starting from the
initial `useState(0)`. -/
def navRun (totalQuestions : Nat) (ops : List NavOp) : Nat :=
  ops.foldl (navStep totalQuestions) 0

/-- The narration playback state (components/NotesDisplay.tsx). -/
inductive PlaybackState where
  | stopped
  | playing
  | paused
  deriving DecidableEq

/-- The utterance texts built by the notes-change effect
(NotesDisplay.tsx): one `SpeechSynthesisUtterance` per section, in
document order, speaking the heading followed by the content. -/
def buildUtterances (notes : List NoteSection) : List String :=
  notes.map fun sec => sec.heading ++ ". " ++ sec.content

/-- `handlePlay` (NotesDisplay.tsx) restricted to the speech-engine
queue and the playback state: an empty utterance list returns
immediately; from `paused` it resumes; from `stopped` it cancels the
engine queue and then speaks every prepared utterance in order; from
`playing` neither branch fires. -/
def handlePlay (utterances : List String) (st : PlaybackState)
    (engineQueue : List String) : List String × PlaybackState :=
  if utterances.length = 0 then (engineQueue, st)
  else
    match st with
    | .paused => (engineQueue, .playing)
    | .stopped => ([] ++ utterances, .playing)
    | .playing => (engineQueue, st)

/-- A parsed quiz element carrying every schema field, used as a
concrete well-formed question. -/
def singleQuestionJson : Json :=
  Json.obj
    [("question", Json.str "What is photosynthesis?"),
     ("options", Json.arr
        [Json.str "A", Json.str "B", Json.str "C", Json.str "D"]),
     ("correctAnswer", Json.str "A"),
     ("explanation", Json.str "Because.")]

/-!
### Theorems

One theorem (plus witness or counterexample where required) per claim,
with shared helper lemmas in between.
-/

/-- C4: `generateImage` never raises — it is a total function of the
underlying outcome: every failure yields the fixed placeholder URL
`https://picsum.photos/1280/720`, and every success yields the data-URI
scheme `data:image/jpeg;base64,` followed by the returned bytes (hence
a string prefixed with that scheme). -/
theorem generateImage_never_raises :
    (∀ resp : Except Unit String,
      (resp = Except.error () ∧ generateImage resp = placeholderImageUrl) ∨
      (∃ b, resp = Except.ok b ∧
        generateImage resp = "data:image/jpeg;base64," ++ b)) ∧
    placeholderImageUrl = "https://picsum.photos/1280/720" := by
  refine ⟨fun resp => ?_, rfl⟩
  match resp with
  | .error () => exact Or.inl ⟨rfl, rfl⟩
  | .ok b => exact Or.inr ⟨b, rfl, rfl⟩

/-- C1 counterexample: a validation failure (the parsed response is the
empty array) reaches the caller as the very same generic
"failed to generate quiz" error a transport failure produces — the
explicit invalid-quiz-data error is raised inside the `try` block but
converted by the `catch`, so the two outcomes are not distinguishable
by the caller. -/
theorem generateQuiz_invalid_data_not_observable :
    generateQuizTry (Except.ok (Json.arr [])) =
      Except.error QuizTryError.invalidQuizData ∧
    generateQuiz (Except.ok (Json.arr [])) = Except.error genericQuizError ∧
    generateQuiz (Except.error ()) = Except.error genericQuizError ∧
    genericQuizError ≠ "Received invalid quiz data from API." :=
  ⟨rfl, rfl, rfl, by decide⟩

/-- C1 amended: `generateQuiz` raises the explicit invalid-quiz-data
error internally when the parsed result is an empty array or its first
element has no truthy `question` field, but the surrounding `catch`
converts that error — like every transport or parse failure — into the
single generic "failed to generate quiz" error, so the caller observes
only the generic error. -/
theorem generateQuiz_failures_collapse (resp : Except Unit Json)
    (e : QuizTryError) (h : generateQuizTry resp = Except.error e) :
    generateQuiz resp = Except.error genericQuizError := by
  simp [generateQuiz, h]

/-- Witness for the C1 amended theorem at the empty-array response. -/
theorem generateQuiz_failures_collapse_witness :
    generateQuiz (Except.ok (Json.arr [])) = Except.error genericQuizError :=
  generateQuiz_failures_collapse (Except.ok (Json.arr []))
    QuizTryError.invalidQuizData rfl

/-- C2 counterexample: `generateNotes` returns successfully on the
empty parsed array — the successful result is an empty sequence — and
also returns unchanged a section whose heading, content and
imagePrompt are all empty. -/
theorem generateNotes_accepts_empty :
    generateNotes (Except.ok ([] : List NoteSection)) = Except.ok [] ∧
    generateNotes (Except.ok [NoteSection.mk "" "" "" none]) =
      Except.ok [NoteSection.mk "" "" "" none] :=
  ⟨rfl, rfl⟩

/-- C2 amended: `generateNotes` performs no validation — a successful
call returns the parsed response unchanged, which may be empty or
contain sections with empty fields; non-emptiness of the section list
is enforced only afterwards by `handleGenerate`, which records the
"could not generate notes" error and leaves `notes` unset when the
returned array is empty.  No check of per-section field non-emptiness
exists anywhere. -/
theorem generateNotes_returns_parse_unchanged (l : List NoteSection)
    (s : AppState) (t : String) (imageFor : Nat → Except Unit String) :
    generateNotes (Except.ok l) = Except.ok l ∧
    (l = [] →
      (handleGenerate s t (Except.ok l) imageFor).notes = none ∧
      (handleGenerate s t (Except.ok l) imageFor).error =
        some emptyNotesError) := by
  refine ⟨rfl, fun hl => ?_⟩
  subst hl
  exact ⟨rfl, rfl⟩

/-- Witness for the C2 amended theorem at the empty section list. -/
theorem generateNotes_returns_parse_unchanged_witness :
    generateNotes (Except.ok ([] : List NoteSection)) = Except.ok [] ∧
    (handleGenerate (AppState.mk none false "" none "" none QuizState.idle none)
        "Photosynthesis" (Except.ok []) (fun _ => Except.error ())).notes =
      none ∧
    (handleGenerate (AppState.mk none false "" none "" none QuizState.idle none)
        "Photosynthesis" (Except.ok []) (fun _ => Except.error ())).error =
      some emptyNotesError := by
  have h := generateNotes_returns_parse_unchanged []
    (AppState.mk none false "" none "" none QuizState.idle none)
    "Photosynthesis" (fun _ => Except.error ())
  exact ⟨h.1, (h.2 rfl).1, (h.2 rfl).2⟩

/-- C3 counterexample: a parsed response with a single well-formed
question passes `generateQuiz`'s validation and is returned as a
one-question quiz — the returned quiz does not have exactly 10
questions. -/
theorem generateQuiz_accepts_short_quiz :
    generateQuiz (Except.ok (Json.arr [singleQuestionJson])) =
      Except.ok [singleQuestionJson] ∧
    [singleQuestionJson].length ≠ 10 :=
  ⟨rfl, by decide⟩

/-- C3 amended: a quiz returned by `generateQuiz` is exactly the parsed
array; validation only guarantees it is non-empty and that its first
element is an object with a truthy `question` field — its length equals
whatever the model returned and is never checked against 10. -/
theorem generateQuiz_success_shape (resp : Except Unit Json)
    (q : List Json) (h : generateQuiz resp = Except.ok q) :
    resp = Except.ok (Json.arr q) ∧ 0 < q.length ∧
    ∃ first, q.head? = some first ∧
      ∃ v, first.getField "question" = some v ∧ v.truthy = true := by
  unfold generateQuiz at h
  split at h
  case h_2 => simp at h
  case h_1 parsed heq =>
    replace h : parsed = q := by simpa using h
    subst h
    unfold generateQuizTry at heq
    split at heq
    case h_1 => simp at heq
    case h_2 parsedQuiz =>
      split at heq
      case h_2 => simp_all
      case h_1 elems =>
        split at heq
        case h_1 => simp at heq
        case h_2 first rest =>
          split at heq
          case h_1 => simp at heq
          case h_3 => simp_all
          case h_2 fields =>
            split at heq
            case h_2 => simp at heq
            case h_1 v hlook =>
              split at heq
              case isFalse => simp at heq
              case isTrue htr =>
                replace heq : Json.obj fields :: rest = parsed := by
                  simpa using heq
                subst heq
                refine ⟨rfl, by simp, Json.obj fields, rfl, v, ?_, htr⟩
                simp [Json.getField, hlook]

/-- Witness for the C3 amended theorem at the one-question response. -/
theorem generateQuiz_success_shape_witness :
    (Except.ok (Json.arr [singleQuestionJson]) : Except Unit Json) =
      Except.ok (Json.arr [singleQuestionJson]) ∧
    0 < [singleQuestionJson].length ∧
    ∃ first, [singleQuestionJson].head? = some first ∧
      ∃ v, first.getField "question" = some v ∧ v.truthy = true :=
  generateQuiz_success_shape (Except.ok (Json.arr [singleQuestionJson]))
    [singleQuestionJson] rfl

/-- The three feedback messages are pairwise distinct and the selection
is exact on every percentage. -/
lemma feedbackMessage_cases (p : Nat) :
    (feedbackMessage p = "Excellent work!" ↔ 80 < p) ∧
    (feedbackMessage p = "Good job!" ↔ 50 < p ∧ p ≤ 80) ∧
    (feedbackMessage p = "Great effort!" ↔ p ≤ 50) := by
  by_cases h1 : 80 < p
  · simp [feedbackMessage, h1]
    omega
  · by_cases h2 : 50 < p
    · simp [feedbackMessage, h1, h2]
      omega
    · simp [feedbackMessage, h1, h2]
      omega

/-- C5: the results view classifies the rounded score percentage into
exactly one of three non-overlapping tiers — strictly above 80 the
"Excellent work!" message, strictly above 50 and at most 80 the
"Good job!" message, and at most 50 the "Great effort!" message — and
in particular percentage 81 maps to "Excellent work!", 60 to
"Good job!", and 40 to "Great effort!". -/
theorem feedback_tiers (quiz : List QuizQuestion)
    (answers : Nat → Option String) :
    (feedbackMessage (scorePercentage (score quiz answers) quiz.length) =
        "Excellent work!" ↔
      80 < scorePercentage (score quiz answers) quiz.length) ∧
    (feedbackMessage (scorePercentage (score quiz answers) quiz.length) =
        "Good job!" ↔
      50 < scorePercentage (score quiz answers) quiz.length ∧
        scorePercentage (score quiz answers) quiz.length ≤ 80) ∧
    (feedbackMessage (scorePercentage (score quiz answers) quiz.length) =
        "Great effort!" ↔
      scorePercentage (score quiz answers) quiz.length ≤ 50) ∧
    feedbackMessage 81 = "Excellent work!" ∧
    feedbackMessage 60 = "Good job!" ∧
    feedbackMessage 40 = "Great effort!" := by
  have h := feedbackMessage_cases
    (scorePercentage (score quiz answers) quiz.length)
  exact ⟨h.1, h.2.1, h.2.2, rfl, rfl, rfl⟩

/-- A counting fold starting at `n` adds the number of matches. -/
lemma foldl_count {α : Type} (P : α → Prop) [DecidablePred P]
    (l : List α) (n : Nat) :
    l.foldl (fun t x => if P x then t + 1 else t) n =
      n + l.countP (fun x => decide (P x)) := by
  induction l generalizing n with
  | nil => simp
  | cons a l ih =>
    rw [List.foldl_cons, List.countP_cons, ih]
    by_cases h : P a
    all_goals simp [h]
    all_goals omega

/-- C6: the computed score is the number of question indices whose
recorded answer equals that question's `correctAnswer` (an unanswered
question never matches and contributes 0), and on the quiz
`[{correctAnswer: A}, {correctAnswer: B}]` with answers
`{0 ↦ A, 1 ↦ C}` the score is 1. -/
theorem score_counts_matching_answers (quiz : List QuizQuestion)
    (answers : Nat → Option String) :
    score quiz answers =
      quiz.enum.countP
        (fun p => decide (answers p.1 = some p.2.correctAnswer)) ∧
    score [QuizQuestion.mk "" [] "A" "", QuizQuestion.mk "" [] "B" ""]
      (fun i => if i = 0 then some "A" else
                if i = 1 then some "C" else none) = 1 := by
  constructor
  · unfold score
    have h := foldl_count
      (fun p : Nat × QuizQuestion => answers p.1 = some p.2.correctAnswer)
      quiz.enum 0
    simpa using h
  · decide

/-- One navigation step from a cursor inside `[0, L-1]` stays inside. -/
lemma navStep_lt (totalQuestions i : Nat) (op : NavOp)
    (hi : i < totalQuestions) : navStep totalQuestions i op < totalQuestions := by
  cases op <;> (simp only [navStep, handleNext, handlePrev]; split <;> omega)

/-- A fold of navigation steps from a cursor inside the range stays
inside. -/
lemma navFold_lt (totalQuestions : Nat) (ops : List NavOp) (start : Nat)
    (hs : start < totalQuestions) :
    ops.foldl (navStep totalQuestions) start < totalQuestions := by
  induction ops generalizing start with
  | nil => simpa using hs
  | cons op ops ih =>
    rw [List.foldl_cons]
    exact ih _ (navStep_lt totalQuestions start op hs)

/-- C7: for a non-empty quiz of length `L`, every sequence of
Next/Previous events starting from cursor 0 keeps the cursor inside
`[0, L-1]` (the lower bound is inherent to `Nat`), and Next at `L-1`
and Previous at 0 leave the cursor unchanged. -/
theorem nav_cursor_bounded (totalQuestions : Nat)
    (hL : 0 < totalQuestions) (ops : List NavOp) :
    navRun totalQuestions ops ≤ totalQuestions - 1 ∧
    handleNext totalQuestions (totalQuestions - 1) = totalQuestions - 1 ∧
    handlePrev 0 = 0 := by
  refine ⟨?_, ?_, rfl⟩
  · have h := navFold_lt totalQuestions ops 0 hL
    unfold navRun
    omega
  · unfold handleNext
    split <;> omega

/-- Witness for the C7 theorem on a 10-question quiz and a concrete
event sequence. -/
theorem nav_cursor_bounded_witness :
    navRun 10 [NavOp.next, NavOp.next, NavOp.prev, NavOp.prev, NavOp.prev] ≤
      10 - 1 ∧
    handleNext 10 (10 - 1) = 10 - 1 ∧
    handlePrev 0 = 0 :=
  nav_cursor_bounded 10 (by decide)
    [NavOp.next, NavOp.next, NavOp.prev, NavOp.prev, NavOp.prev]

/-- C8 counterexample: with an empty note set the play operation
returns before the cancel — a pending utterance left in the engine
queue survives, so the resulting queue is not the freshly built
(empty) utterance list that a cancel-then-enqueue would produce. -/
theorem handlePlay_empty_notes_skips_cancel :
    handlePlay (buildUtterances []) PlaybackState.stopped ["leftover"] =
      (["leftover"], PlaybackState.stopped) ∧
    buildUtterances [] = [] ∧
    ["leftover"] ≠ ([] : List String) :=
  ⟨rfl, rfl, by decide⟩

/-- C8 amended: for every non-empty note set of N sections, play taken
from the stopped state first cancels any pending or queued speech and
then enqueues exactly N utterances, one per section in document order,
utterance i carrying section i's heading followed by its content; for
an empty note set the handler returns early without cancelling or
enqueueing. -/
theorem handlePlay_stopped_enqueues_all (notes : List NoteSection)
    (engineQueue : List String) (h : notes ≠ []) :
    handlePlay (buildUtterances notes) PlaybackState.stopped engineQueue =
      (buildUtterances notes, PlaybackState.playing) ∧
    (buildUtterances notes).length = notes.length ∧
    ∀ i : Nat, (buildUtterances notes)[i]? =
      (notes[i]?).map fun sec => sec.heading ++ ". " ++ sec.content := by
  refine ⟨?_, by simp [buildUtterances], fun i => by simp [buildUtterances]⟩
  have hlen : ¬ (buildUtterances notes).length = 0 := by
    simp [buildUtterances]
    exact h
  simp [handlePlay, hlen]

/-- Witness for the C8 amended theorem on a one-section note set with a
stale engine queue. -/
theorem handlePlay_stopped_enqueues_all_witness :
    handlePlay (buildUtterances [NoteSection.mk "H" "C" "P" none])
        PlaybackState.stopped ["stale"] =
      (buildUtterances [NoteSection.mk "H" "C" "P" none],
        PlaybackState.playing) ∧
    (buildUtterances [NoteSection.mk "H" "C" "P" none]).length =
      [NoteSection.mk "H" "C" "P" none].length ∧
    ∀ i : Nat, (buildUtterances [NoteSection.mk "H" "C" "P" none])[i]? =
      ([NoteSection.mk "H" "C" "P" none][i]?).map
        fun sec => sec.heading ++ ". " ++ sec.content :=
  handlePlay_stopped_enqueues_all [NoteSection.mk "H" "C" "P" none]
    ["stale"] (by decide)

/-- C9: when the start-quiz action fails (the underlying `generateQuiz`
call throws), the quiz state reverts to `idle` and the thrown message
is recorded in the quiz-scoped error, while the notes, the topic, the
notes-level error, and the stored quiz are all left unchanged. -/
theorem handleStartQuiz_failure_scoped (s : AppState)
    (ns : List NoteSection) (quizResp : Except Unit Json) (e : String)
    (hn : s.notes = some ns)
    (hf : generateQuiz quizResp = Except.error e) :
    (handleStartQuiz s quizResp).quizState = QuizState.idle ∧
    (handleStartQuiz s quizResp).quizError = some e ∧
    (handleStartQuiz s quizResp).notes = s.notes ∧
    (handleStartQuiz s quizResp).topic = s.topic ∧
    (handleStartQuiz s quizResp).error = s.error ∧
    (handleStartQuiz s quizResp).quiz = s.quiz := by
  simp [handleStartQuiz, hn, hf]

/-- Witness for the C9 theorem on a concrete application state and a
failing quiz request. -/
theorem handleStartQuiz_failure_scoped_witness :
    (handleStartQuiz
        (AppState.mk (some [NoteSection.mk "H" "C" "P" none]) false ""
          none "Photosynthesis" none QuizState.idle none)
        (Except.error ())).quizState = QuizState.idle ∧
    (handleStartQuiz
        (AppState.mk (some [NoteSection.mk "H" "C" "P" none]) false ""
          none "Photosynthesis" none QuizState.idle none)
        (Except.error ())).quizError = some genericQuizError ∧
    (handleStartQuiz
        (AppState.mk (some [NoteSection.mk "H" "C" "P" none]) false ""
          none "Photosynthesis" none QuizState.idle none)
        (Except.error ())).notes =
      (AppState.mk (some [NoteSection.mk "H" "C" "P" none]) false ""
          none "Photosynthesis" none QuizState.idle none).notes ∧
    (handleStartQuiz
        (AppState.mk (some [NoteSection.mk "H" "C" "P" none]) false ""
          none "Photosynthesis" none QuizState.idle none)
        (Except.error ())).topic =
      (AppState.mk (some [NoteSection.mk "H" "C" "P" none]) false ""
          none "Photosynthesis" none QuizState.idle none).topic ∧
    (handleStartQuiz
        (AppState.mk (some [NoteSection.mk "H" "C" "P" none]) false ""
          none "Photosynthesis" none QuizState.idle none)
        (Except.error ())).error =
      (AppState.mk (some [NoteSection.mk "H" "C" "P" none]) false ""
          none "Photosynthesis" none QuizState.idle none).error ∧
    (handleStartQuiz
        (AppState.mk (some [NoteSection.mk "H" "C" "P" none]) false ""
          none "Photosynthesis" none QuizState.idle none)
        (Except.error ())).quiz =
      (AppState.mk (some [NoteSection.mk "H" "C" "P" none]) false ""
          none "Photosynthesis" none QuizState.idle none).quiz :=
  handleStartQuiz_failure_scoped
    (AppState.mk (some [NoteSection.mk "H" "C" "P" none]) false ""
      none "Photosynthesis" none QuizState.idle none)
    [NoteSection.mk "H" "C" "P" none] (Except.error ())
    genericQuizError rfl rfl

/-- C10 counterexample: while a generation is in flight
(`isLoading = true`), submitting a topic whose trimmed form is
non-empty does not invoke the generate callback, contrary to the claim
that every such input is forwarded. -/
theorem handleSubmit_blocked_while_loading :
    handleSubmit "Photosynthesis" true = none ∧
    trim "Photosynthesis" ≠ "" := by
  refine ⟨by decide, by decide⟩

/-- C10 amended: submission never forwards anything but the trimmed,
non-empty topic: a whitespace-only or empty input is a no-op, a
submission during loading is a no-op, and otherwise the generate
callback receives exactly the input with leading and trailing
whitespace removed. -/
theorem handleSubmit_forwards_trimmed (topic : String) (isLoading : Bool) :
    (trim topic = "" → handleSubmit topic isLoading = none) ∧
    (isLoading = true → handleSubmit topic isLoading = none) ∧
    (trim topic ≠ "" → isLoading = false →
      handleSubmit topic isLoading = some (trim topic)) ∧
    (∀ t, handleSubmit topic isLoading = some t →
      t = trim topic ∧ t ≠ "") := by
  by_cases h1 : trim topic = "" <;> cases isLoading <;>
    simp [handleSubmit, h1]

/-- Witness for the C10 amended theorem: a padded topic is forwarded
trimmed. -/
theorem handleSubmit_forwards_trimmed_witness :
    handleSubmit "  Photosynthesis  " false = some "Photosynthesis" := by
  have h := (handleSubmit_forwards_trimmed "  Photosynthesis  " false).2.2.1
    (by decide) rfl
  rw [h]
  decide

end GuruAI
